import Mathlib

/-!
Verification of the pdfcheck VPN-request validation pipeline.

Shallow embedding of the document analysis and decision pipeline:
text extraction (`pdf_processor.PDFProcessor.extract_text_content`),
document-type classification (`detect_document_type`), field extraction
(`extract_form_fields`, including a small backtracking regex matcher for
the ten field patterns), signature detection (`detect_signatures`),
the deterministic rule checks (`llm_judge.prepare_issues`), the Gemini
judge wrapper and its fallback (`gemini_judge.GeminiJudge`), and the
orchestrator (`pdf_validator_agent.PDFValidatorAgent`).

External effects (file IO, the pdfplumber/PyPDF2 backends, the cv2 page
rasterisation, the LLM network call) are modelled as explicit inputs:
each backend invocation is an `Except`/outcome value describing either
its returned data or the exception it raised.  Python floats are
modelled as rationals; Python exceptions raised and caught inside a
function are modelled by the corresponding outcome constructors.
-/

namespace PdfCheck

/-! ## Python string primitives -/

/-- ASCII whitespace as recognised by Python `str.strip` / regex `\s`. -/
def isPyWs (c : Char) : Bool :=
  c = ' ' || c = '\t' || c = '\n' || c = '\r' || c = '\x0b' || c = '\x0c'

/-- Python `str.strip()`: remove leading and trailing whitespace. -/
def pyStrip (s : String) : String :=
  String.mk (((s.data.dropWhile isPyWs).reverse.dropWhile isPyWs).reverse)

/-- The first list starts the second list (character-wise equality). -/
def leadsWith : List Char → List Char → Bool
  | [], _ => true
  | _ :: _, [] => false
  | a :: as, b :: bs => a == b && leadsWith as bs

/-- `needle` occurs as a contiguous segment of `hay`. -/
def containsSeg (needle : List Char) : List Char → Bool
  | [] => needle.isEmpty
  | c :: t => leadsWith needle (c :: t) || containsSeg needle t

/-- Python `needle in hay` on strings (case-sensitive substring test). -/
def strContains (hay needle : String) : Bool :=
  containsSeg needle.data hay.data

/-- Python `str.lower()` restricted to ASCII (all repository keywords are ASCII). -/
def strLower (s : String) : String :=
  String.mk (s.data.map Char.toLower)

/-- Python `str.isdigit()` for ASCII digit strings. -/
def pyIsdigit (s : String) : Bool :=
  !s.data.isEmpty && s.data.all Char.isDigit

/-- Split on a single-character separator, keeping empty parts
(Python `s.split(sep)` for the one-character separators used here). -/
def splitOnCharL (sep : Char) : List Char → List (List Char)
  | [] => [[]]
  | c :: t =>
    match splitOnCharL sep t with
    | [] => []
    | cur :: rest => if c = sep then [] :: cur :: rest else (c :: cur) :: rest

/-- Python `s.split(sep)` for a one-character separator. -/
def pySplit (sep : Char) (s : String) : List String :=
  (splitOnCharL sep s.data).map String.mk

/-- Count of non-overlapping, case-insensitive occurrences of `needle` in
`hay` (Python `hay.lower().count(needle.lower())`); used only to state
spec sentences that speak about "occurrences" of a keyword. -/
def countOccCI (hay needle : String) : Nat :=
  go hay.length (strLower needle).data (strLower hay).data
where
  go (fuel : Nat) (n : List Char) (l : List Char) : Nat :=
    match fuel, l with
    | 0, _ => 0
    | _, [] => 0
    | fuel + 1, c :: t =>
      if leadsWith n (c :: t) then
        1 + go fuel n (List.drop (n.length - 1) t)
      else
        go fuel n t

/-! ## Document-type classification (`pdf_processor.detect_document_type`) -/

structure TypeResult where
  document_type : String
  confidence : ℚ
  new_vpn_score : Nat
  extension_score : Nat
  deriving DecidableEq, Repr

/-- Keyword set for a new VPN request (source list, already lower-case). -/
def newVpnKeywords : List String :=
  ["permohonan vpn baru", "request vpn baru", "pengajuan vpn baru",
   "new vpn request", "vpn baru", "permohonan akses vpn"]

/-- Keyword set for a VPN extension (source list, already lower-case). -/
def extensionKeywords : List String :=
  ["perpanjangan vpn", "vpn extension", "perpanjangan akses vpn",
   "extend vpn", "renewal vpn", "perpanjangan"]

/-- `PDFProcessor.detect_document_type`: lower-case the text, score each
keyword set by the number of its keywords occurring as substrings
(`sum(1 for keyword in keywords if keyword in text_lower)`), and pick the
strictly higher score. -/
def detectDocumentType (text_content : String) : TypeResult :=
  let text_lower := strLower text_content
  let new_vpn_score := newVpnKeywords.countP (fun k => strContains text_lower k)
  let extension_score := extensionKeywords.countP (fun k => strContains text_lower k)
  if extension_score < new_vpn_score then
    ⟨"new_vpn_request", min (9/10) (1/2 + (new_vpn_score : ℚ) * (1/10)),
      new_vpn_score, extension_score⟩
  else if new_vpn_score < extension_score then
    ⟨"vpn_extension", min (9/10) (1/2 + (extension_score : ℚ) * (1/10)),
      new_vpn_score, extension_score⟩
  else
    ⟨"unknown", 3/10, new_vpn_score, extension_score⟩

/-! ## A small backtracking regex matcher

`pdf_processor.extract_form_fields` applies ten fixed patterns with
`re.findall(pattern, text, re.IGNORECASE | re.MULTILINE)` and keeps the
the (single) capture group of the first match.  The patterns use only: ordered
alternation of literals, character classes with `*`/`+`/`?`/`{2,}`,
and one trailing capture group.  The matcher below implements exactly
the Python leftmost-match, greedy-with-backtracking semantics for those
constructs (alternatives tried left to right, quantifiers longest
first).  `re.IGNORECASE` is reflected by case-insensitive literal
comparison and case-closed character classes; `re.MULTILINE` only
affects anchors, which the patterns do not use. -/

inductive RE where
  | eps : RE
  | cls (p : Char → Bool) : RE
  | lit (s : String) : RE
  | alt (a b : RE) : RE
  | seq (a b : RE) : RE
  | star (r : RE) : RE
  | plus (r : RE) : RE
  | opt (r : RE) : RE

/-- Strip a literal from the front of the input, comparing characters
case-insensitively (`re.IGNORECASE`). -/
def litStrip : List Char → List Char → Option (List Char)
  | [], s => some s
  | _ :: _, [] => none
  | a :: as, b :: bs => if a.toLower == b.toLower then litStrip as bs else none

/-- Backtracking matcher in continuation-passing style.  `k` receives the
unconsumed input; the first alternative for which the whole continuation
succeeds wins, which yields the Python ordered-alternation and greedy
quantifier semantics.  `fuel` bounds the recursion depth; the wrappers
below always supply enough fuel for the fixed patterns in this file. -/
def mrun : Nat → RE → List Char → (List Char → Option (List Char)) → Option (List Char)
  | 0, _, _, _ => none
  | _ + 1, RE.eps, s, k => k s
  | _ + 1, RE.cls p, s, k =>
    match s with
    | [] => none
    | c :: t => if p c then k t else none
  | _ + 1, RE.lit l, s, k =>
    match litStrip l.data s with
    | some t => k t
    | none => none
  | fuel + 1, RE.alt a b, s, k =>
    (mrun fuel a s k).orElse (fun _ => mrun fuel b s k)
  | fuel + 1, RE.seq a b, s, k =>
    mrun fuel a s (fun t => mrun fuel b t k)
  | fuel + 1, RE.star r, s, k =>
    (mrun fuel r s (fun t =>
      if t.length < s.length then mrun fuel (RE.star r) t k else none)).orElse
      (fun _ => k s)
  | fuel + 1, RE.plus r, s, k =>
    mrun fuel r s (fun t => mrun fuel (RE.star r) t (fun u => k u))
  | fuel + 1, RE.opt r, s, k =>
    (mrun fuel r s k).orElse (fun _ => k s)

/-- A field pattern: a non-capturing part followed by one trailing
capture group (the shape of all ten source patterns). -/
structure FieldPat where
  pre : RE
  grp : RE

/-- Try to match `p` anchored at the start of `s`; on success return the
part of the input consumed by the capture group. -/
def tryAt (p : FieldPat) (s : List Char) : Option (List Char) :=
  mrun (4 * s.length + 64) p.pre s (fun rest =>
    mrun (4 * rest.length + 64) p.grp rest (fun rest2 =>
      some (rest.take (rest.length - rest2.length))))

/-- The capture of the leftmost match of `p` in `s` (what
`re.findall(...)[0]` yields for these single-group patterns). -/
def findFirst (p : FieldPat) : List Char → Option (List Char)
  | [] =>
    match tryAt p [] with
    | some c => some c
    | none => none
  | c :: t =>
    match tryAt p (c :: t) with
    | some cap => some cap
    | none => findFirst p t

/-! ### Character classes of the source patterns -/

/-- `[\s:]` -/
def clsWsColon (c : Char) : Bool := isPyWs c || c = ':'

/-- `[A-Za-z\s]` -/
def clsAlphaWs (c : Char) : Bool := c.isAlpha || isPyWs c

/-- `[A-Z0-9]` under `re.IGNORECASE` (so lower-case letters match too). -/
def clsUpperDigitIC (c : Char) : Bool := c.isAlpha || c.isDigit

/-- `[0-9\s\-\+\(\)]` -/
def clsPhone (c : Char) : Bool :=
  c.isDigit || isPyWs c || c = '-' || c = '+' || c = '(' || c = ')'

/-- `[a-zA-Z0-9._%+-]` -/
def clsEmailLocal (c : Char) : Bool :=
  c.isAlpha || c.isDigit || c = '.' || c = '_' || c = '%' || c = '+' || c = '-'

/-- `[a-zA-Z0-9.-]` -/
def clsEmailDomain (c : Char) : Bool := c.isAlpha || c.isDigit || c = '.' || c = '-'

/-- `[a-zA-Z]` -/
def clsAlpha (c : Char) : Bool := c.isAlpha

/-- `[0-9\s\-\/]` -/
def clsDateChars (c : Char) : Bool := c.isDigit || isPyWs c || c = '-' || c = '/'

/-- `[0-9\s\-\:]` -/
def clsTimeChars (c : Char) : Bool := c.isDigit || isPyWs c || c = '-' || c = ':'

/-- `[A-Za-z0-9\s]` -/
def clsAlnumWs (c : Char) : Bool := c.isAlpha || c.isDigit || isPyWs c

/-- `\s` (for `\s*` inside the phone label). -/
def clsWs (c : Char) : Bool := isPyWs c

/-! ### The ten field patterns and the schema -/

inductive FieldName where
  | nik | nama | noTel | email | departement | manager
  | rangeTanggal | rangeWaktu | approvedBy | userVPN
  deriving DecidableEq, Repr

/-- The Python dictionary key of each field. -/
def pyName : FieldName → String
  | .nik => "NIK"
  | .nama => "Nama"
  | .noTel => "No Tel"
  | .email => "Email"
  | .departement => "Departement"
  | .manager => "Manager"
  | .rangeTanggal => "Range Tanggal"
  | .rangeWaktu => "Range Waktu"
  | .approvedBy => "Approved by"
  | .userVPN => "User VPN"

/-- Insertion order of `field_patterns` in `extract_form_fields` (equal to
the `REQUIRED_FIELDS` order of `llm_judge.py`). -/
def SCHEMA : List FieldName :=
  [.nik, .nama, .noTel, .email, .departement, .manager,
   .rangeTanggal, .rangeWaktu, .approvedBy, .userVPN]

/-- Label part shared by most patterns: an ordered alternation of label
literals followed by `[\s:]*`. -/
def labelThen (labels : RE) : RE := RE.seq labels (RE.star (RE.cls clsWsColon))

/-- The regex of each field, from the `field_patterns` dict. -/
def fieldPat : FieldName → FieldPat
  | .nik =>
    -- (?:NIK|Nomor Induk Karyawan)[\s:]*([A-Z0-9]+)
    ⟨labelThen (RE.alt (RE.lit "NIK") (RE.lit "Nomor Induk Karyawan")),
     RE.plus (RE.cls clsUpperDigitIC)⟩
  | .nama =>
    -- (?:Nama|Name)[\s:]*([A-Za-z\s]+)
    ⟨labelThen (RE.alt (RE.lit "Nama") (RE.lit "Name")),
     RE.plus (RE.cls clsAlphaWs)⟩
  | .noTel =>
    -- (?:No\.?\s*Tel|Telepon|Phone)[\s:]*([0-9\s\-\+\(\)]+)
    ⟨labelThen (RE.alt
        (RE.seq (RE.lit "No")
          (RE.seq (RE.opt (RE.lit "."))
            (RE.seq (RE.star (RE.cls clsWs)) (RE.lit "Tel"))))
        (RE.alt (RE.lit "Telepon") (RE.lit "Phone"))),
     RE.plus (RE.cls clsPhone)⟩
  | .email =>
    -- (?:Email|E-mail)[\s:]*([a-zA-Z0-9._%+-]+@[a-zA-Z0-9.-]+\.[a-zA-Z]{2,})
    ⟨labelThen (RE.alt (RE.lit "Email") (RE.lit "E-mail")),
     RE.seq (RE.plus (RE.cls clsEmailLocal))
       (RE.seq (RE.lit "@")
         (RE.seq (RE.plus (RE.cls clsEmailDomain))
           (RE.seq (RE.lit ".")
             (RE.seq (RE.cls clsAlpha)
               (RE.seq (RE.cls clsAlpha) (RE.star (RE.cls clsAlpha)))))))⟩
  | .departement =>
    -- (?:Departement|Department|Dept)[\s:]*([A-Za-z\s]+)
    ⟨labelThen (RE.alt (RE.lit "Departement")
        (RE.alt (RE.lit "Department") (RE.lit "Dept"))),
     RE.plus (RE.cls clsAlphaWs)⟩
  | .manager =>
    -- (?:Manager|Atasan)[\s:]*([A-Za-z\s]+)
    ⟨labelThen (RE.alt (RE.lit "Manager") (RE.lit "Atasan")),
     RE.plus (RE.cls clsAlphaWs)⟩
  | .rangeTanggal =>
    -- (?:Range Tanggal|Date Range)[\s:]*([0-9\s\-\/]+)
    ⟨labelThen (RE.alt (RE.lit "Range Tanggal") (RE.lit "Date Range")),
     RE.plus (RE.cls clsDateChars)⟩
  | .rangeWaktu =>
    -- (?:Range Waktu|Time Range)[\s:]*([0-9\s\-\:]+)
    ⟨labelThen (RE.alt (RE.lit "Range Waktu") (RE.lit "Time Range")),
     RE.plus (RE.cls clsTimeChars)⟩
  | .approvedBy =>
    -- (?:Approved by|Disetujui oleh)[\s:]*([A-Za-z\s]+)
    ⟨labelThen (RE.alt (RE.lit "Approved by") (RE.lit "Disetujui oleh")),
     RE.plus (RE.cls clsAlphaWs)⟩
  | .userVPN =>
    -- (?:User VPN|VPN User)[\s:]*([A-Za-z0-9\s]+)
    ⟨labelThen (RE.alt (RE.lit "User VPN") (RE.lit "VPN User")),
     RE.plus (RE.cls clsAlnumWs)⟩

/-- `PDFProcessor.extract_form_fields`: for each schema field in
insertion order, take the capture of the first match, strip it, and
store it under the name of the field; fields with no match are skipped. -/
def extractFormFields (text_content : String) : List (FieldName × String) :=
  SCHEMA.filterMap (fun f =>
    (findFirst (fieldPat f) text_content.data).map
      (fun cap => (f, pyStrip (String.mk cap))))

/-! ## Signature detection (`pdf_processor.detect_signatures`)

The cv2 per-page work (rasterise, threshold, find contours) is external;
each page of the input is either the list of external contours cv2
returned for it, or the exception message raised while processing it.
The Python `try` block wraps the whole page loop, so an exception on one
page ends the loop; the partial counts survive because the accumulator
dict was mutated in place. -/

structure Contour where
  area : ℚ
  x : Nat
  y : Nat
  w : Nat
  h : Nat

structure SigLocation where
  page : Nat
  x : Nat
  y : Nat
  width : Nat
  height : Nat
  area : ℚ
  deriving DecidableEq, Repr

structure SigDetail where
  page : Nat
  coordinates : Nat × Nat × Nat × Nat
  area : ℚ
  confidence : ℚ
  deriving DecidableEq, Repr

structure SignatureInfo where
  signature_count : Nat
  signature_locations : List SigLocation
  signature_valid : Bool
  signature_details : List SigDetail
  error : Option String
  deriving DecidableEq, Repr

/-- The contour filter of the source: area in (500, 50000), width > 50,
height > 20, aspect ratio `w/h` in (1.5, 8). -/
def retainedContour (c : Contour) : Bool :=
  decide ((500 : ℚ) < c.area) && decide (c.area < 50000) &&
  decide (50 < c.w) && decide (20 < c.h) &&
  decide ((3/2 : ℚ) < (c.w : ℚ) / (c.h : ℚ)) && decide ((c.w : ℚ) / (c.h : ℚ) < 8)

/-- One retained contour increments the count and appends one record to
each of the two per-instance lists (all inside the same loop body). -/
def processContour (page_num : Nat) (acc : Nat × List SigLocation × List SigDetail)
    (c : Contour) : Nat × List SigLocation × List SigDetail :=
  if retainedContour c then
    (acc.1 + 1,
     acc.2.1 ++ [⟨page_num + 1, c.x, c.y, c.w, c.h, c.area⟩],
     acc.2.2 ++ [⟨page_num + 1, (c.x, c.y, c.w, c.h), c.area, min (9/10) (c.area / 10000)⟩])
  else acc

/-- The page loop: pages are processed in order; the first failing page
raises out of the loop, so it and every later page contribute nothing,
and the exception message is recorded under the `error` key. -/
def sigLoop :
    List (Except String (List Contour)) → Nat → Nat × List SigLocation × List SigDetail →
      (Nat × List SigLocation × List SigDetail) × Option String
  | [], _, acc => (acc, none)
  | Except.error e :: _, _, acc => (acc, some e)
  | Except.ok cs :: rest, page_num, acc =>
    sigLoop rest (page_num + 1) (cs.foldl (processContour page_num) acc)

/-- `PDFProcessor.detect_signatures`.  `signature_valid` is computed
after the `try`/`except`, hence from the (possibly partial) count. -/
def detectSignatures (pages : List (Except String (List Contour)))
    (min_signatures : Nat) : SignatureInfo :=
  let r := sigLoop pages 0 (0, [], [])
  { signature_count := r.1.1
    signature_locations := r.1.2.1
    signature_valid := decide (min_signatures ≤ r.1.1)
    signature_details := r.1.2.2
    error := r.2 }

/-! ## Text extraction (`pdf_processor.extract_text_content`)

The two backends are external: the primary (pdfplumber, table-aware)
yields per-page text (after the `or ""` guard) and tables, the
secondary (PyPDF2) yields per-page text; either may instead raise, and
a backend failure is modelled at whole-backend granularity.  If both
raise, the returned content keeps the initial empty `raw_text` and
records an error description — the function itself does not raise. -/

abbrev Table := List (List String)

structure PageRec where
  page_number : Nat
  text : String
  tables : List Table
  deriving DecidableEq, Repr

structure Content where
  raw_text : String
  pages : List PageRec
  extraction_method : String
  error : Option String
  deriving DecidableEq, Repr

/-- The page separator written into `raw_text`:
`f"\n--- Page {i+1} ---\n{page_text}"`. -/
def pageChunk (i : Nat) (t : String) : String :=
  "\n--- Page " ++ toString (i + 1) ++ " ---\n" ++ t

def extractTextContent (primary : Except String (List (String × List Table)))
    (secondary : Except String (List String)) : Content :=
  match primary with
  | Except.ok ps =>
    { raw_text := String.join (ps.enum.map fun q => pageChunk q.1 q.2.1)
      pages := ps.enum.map fun q => ⟨q.1 + 1, q.2.1, q.2.2⟩
      extraction_method := "pdfplumber"
      error := none }
  | Except.error _ =>
    match secondary with
    | Except.ok ts =>
      { raw_text := String.join (ts.enum.map fun q => pageChunk q.1 q.2)
        pages := ts.enum.map fun q => ⟨q.1 + 1, q.2, []⟩
        extraction_method := "PyPDF2"
        error := none }
    | Except.error e2 =>
      { raw_text := ""
        pages := []
        extraction_method := "pdfplumber"
        error := some ("PDF extraction failed: " ++ e2) }

/-! ## The processing step (`pdf_processor.process_pdf`) -/

structure ValidationData where
  fields : FieldName → Option String
  signature_valid : Bool
  signature_count : Nat
  document_type : String
  raw_text : String

/-- Python `validation_data.get(name, "")` for a schema field. -/
def ValidationData.get (vd : ValidationData) (f : FieldName) : String :=
  (vd.fields f).getD ""

structure ProcessResult where
  processing_status : String
  extracted_content : Content
  document_type : TypeResult
  form_fields : List (FieldName × String)
  signature_info : SignatureInfo
  validation_data : ValidationData
  error : Option String

/-- `PDFProcessor.process_pdf`.  Its `except` branch (which would set
`processing_status = "error"`) only fires when an inner call raises;
every inner call above catches its own failures and returns normally,
so the status is always `"success"` here. -/
def processPdf (primary : Except String (List (String × List Table)))
    (secondary : Except String (List String))
    (sigPages : List (Except String (List Contour)))
    (min_signatures : Nat) : ProcessResult :=
  let content := extractTextContent primary secondary
  let dt := detectDocumentType content.raw_text
  let ff := extractFormFields content.raw_text
  let si := detectSignatures sigPages min_signatures
  { processing_status := "success"
    extracted_content := content
    document_type := dt
    form_fields := ff
    signature_info := si
    validation_data :=
      { fields := fun f => ff.lookup f
        signature_valid := si.signature_valid
        signature_count := si.signature_count
        document_type := dt.document_type
        raw_text := content.raw_text }
    error := none }

/-! ## The Gemini judge (`gemini_judge.GeminiJudge`) -/

structure SignatureAnalysis where
  count : Nat
  sufficient : Bool
  description : String
  deriving DecidableEq, Repr

structure DocTypeAnalysis where
  detected_type : String
  confidence : ℚ
  description : String
  deriving DecidableEq, Repr

/-- A JSON object successfully parsed from the model response; each
field is `none` when the key is absent from the object. -/
structure JudgeParsed where
  is_valid : Option Bool
  status : Option String
  confidence : Option ℚ
  issues : Option (List String)
  reasoning : Option String
  missing_fields : Option (List String)
  signature_analysis : Option SignatureAnalysis
  document_type_analysis : Option DocTypeAnalysis
  recommendations : Option (List String)

/-- The dictionary `evaluate_pdf` returns: the five required keys are
always present (back-filled with `_get_default_value` if missing), the
rest keep their optional character. -/
structure JudgeResult where
  is_valid : Bool
  status : String
  confidence : ℚ
  issues : List String
  reasoning : String
  missing_fields : Option (List String)
  signature_analysis : Option SignatureAnalysis
  document_type_analysis : Option DocTypeAnalysis
  recommendations : Option (List String)

/-- Key back-filling and confidence clamping of the success path of
`evaluate_pdf` (the `float()` conversion failure branch, which would set
0.5, cannot fire for number-valued confidences). -/
def normalizeJudge (p : JudgeParsed) : JudgeResult :=
  { is_valid := p.is_valid.getD false
    status := p.status.getD "rejected_with_reason"
    confidence := max 0 (min 1 (p.confidence.getD 0))
    issues := p.issues.getD ["LLM evaluation failed"]
    reasoning := p.reasoning.getD "Unable to evaluate due to processing error"
    missing_fields := p.missing_fields
    signature_analysis := p.signature_analysis
    document_type_analysis := p.document_type_analysis
    recommendations := p.recommendations }

/-- `GeminiJudge._create_fallback_result`: rule-based fallback run when
the LLM call or the JSON parse fails.  It checks only that each of the
ten required fields is non-blank, that a present Email contains the
company domain, and that `signature_count >= 3`. -/
def createFallbackResult (vd : ValidationData) (error_msg : String) : JudgeResult :=
  let missing := SCHEMA.filter (fun f => pyStrip (vd.get f) = "")
  let missingIssues := missing.map
    (fun f => "Field \x27" ++ pyName f ++ "\x27 is missing")
  let email := vd.get .email
  let emailIssues :=
    if email ≠ "" ∧ ¬ strContains email "@infomedia.co.id" = true then
      ["Email must use @infomedia.co.id domain"]
    else []
  let sigIssues :=
    if vd.signature_count < 3 then
      ["Insufficient signatures: " ++ toString vd.signature_count ++ "/3 required"]
    else []
  let issues := missingIssues ++ emailIssues ++ sigIssues
  let is_valid := issues.isEmpty && decide (3 ≤ vd.signature_count)
  { is_valid := is_valid
    status := if is_valid then "approved_for_processing" else "rejected_with_reason"
    confidence := 3/10
    issues := issues
    reasoning := "Fallback evaluation due to: " ++ error_msg
    missing_fields := some (missing.map pyName)
    signature_analysis := some
      ⟨vd.signature_count, decide (3 ≤ vd.signature_count),
       "Found " ++ toString vd.signature_count ++ " signatures"⟩
    document_type_analysis := some ⟨vd.document_type, 3/10, "Basic detection only"⟩
    recommendations := some
      ["Please ensure all required fields are filled and document has sufficient signatures"] }

/-- Outcome of the external LLM call inside `evaluate_pdf`: the
response text parsed as a JSON object (after code-fence stripping), or a
`json.JSONDecodeError`, or any other exception during the call. -/
inductive LlmOutcome where
  | success (p : JudgeParsed)
  | parseError (msg : String)
  | exn (msg : String)

/-- `GeminiJudge.evaluate_pdf` (the Langfuse logging calls are
fire-and-forget and do not affect the returned value). -/
def evaluatePdf (vd : ValidationData) (o : LlmOutcome) : JudgeResult :=
  match o with
  | .success p => normalizeJudge p
  | .parseError m => createFallbackResult vd ("JSON parsing error: " ++ m)
  | .exn m => createFallbackResult vd ("LLM evaluation error: " ++ m)

/-! ## The orchestrator (`pdf_validator_agent.PDFValidatorAgent`) -/

structure FinalResult where
  is_valid : Bool
  status : String
  message : String
  confidence : ℚ
  document_type : String
  signature_count : Nat
  signature_valid : Bool
  issues : List String
  reasoning : String
  form_fields_completeness : ℚ
  recommendations : List String

/-- Python `sep.join(xs)`. -/
def joinSep (sep : String) : List String → String
  | [] => ""
  | [a] => a
  | a :: b :: rest => a ++ sep ++ joinSep sep (b :: rest)

/-- Two-fractional-digit decimal rendering of a rational, modelling the
`:.2f` float formatting of the confidence inside messages (binary-float
rounding detail abstracted as round-half-up). -/
def fmt2 (q : ℚ) : String :=
  let n : ℤ := ⌊q * 100 + 1/2⌋
  let m := n.natAbs
  (if n < 0 then "-" else "") ++ toString (m / 100) ++ "." ++
    (if m % 100 < 10 then "0" else "") ++ toString (m % 100)

/-- `PDFValidatorAgent._make_final_decision`. -/
def makeFinalDecision (pd : ProcessResult) (lr : JudgeResult) : FinalResult :=
  let document_type := pd.document_type.document_type
  let signature_count := pd.signature_info.signature_count
  let signature_valid := pd.signature_info.signature_valid
  let form_fields := pd.form_fields
  let llm_is_valid := lr.is_valid
  let llm_confidence := lr.confidence
  let llm_issues := lr.issues
  let llm_reasoning := lr.reasoning
  let is_valid := llm_is_valid && signature_valid
  let message :=
    if is_valid then
      "Document approved. Type: " ++ document_type ++ ", Signatures: " ++
        toString signature_count ++ ", Confidence: " ++ fmt2 llm_confidence
    else
      let reasons :=
        (if !signature_valid then
          ["Insufficient signatures: " ++ toString signature_count ++ "/3 required"]
         else []) ++ llm_issues.take 3
      let reasons :=
        if reasons.isEmpty then ["Document does not meet validation criteria"] else reasons
      "Document rejected. Reasons: " ++ joinSep "; " reasons
  { is_valid := is_valid
    status := if is_valid then "approved_for_processing" else "rejected_with_reason"
    message := message
    confidence := llm_confidence
    document_type := document_type
    signature_count := signature_count
    signature_valid := signature_valid
    issues := llm_issues
    reasoning := llm_reasoning
    form_fields_completeness :=
      if form_fields.isEmpty then 0
      else ((form_fields.countP (fun p => pyStrip p.2 ≠ "")) : ℚ) / (form_fields.length : ℚ)
    recommendations := lr.recommendations.getD [] }

/-- The `final_result` dict: the error branches build a three-key dict
with `status = "error"` and `is_valid = False`; the decision branch
returns the full `_make_final_decision` record. -/
inductive FinalOutcome where
  | errorResult (message : String)
  | decided (r : FinalResult)

def FinalOutcome.statusOf : FinalOutcome → String
  | .errorResult _ => "error"
  | .decided r => r.status

def FinalOutcome.validOf : FinalOutcome → Bool
  | .errorResult _ => false
  | .decided r => r.is_valid

structure RunResult where
  processing_steps : List (String × String)
  pdf_processing : ProcessResult
  llm_evaluation : Option JudgeResult
  final_result : FinalOutcome

/-- All external behaviour one document run depends on. -/
structure PipelineInput where
  primary : Except String (List (String × List Table))
  secondary : Except String (List String)
  sigPages : List (Except String (List Contour))
  min_signatures : Nat
  llm : LlmOutcome

/-- `PDFValidatorAgent.validate_pdf_file` (timestamps and Langfuse calls
dropped; each step record keeps its name and final status).  The outer
`except` branch is unreachable with the modelled inputs because every
step catches its own failures. -/
def validatePdfFile (inp : PipelineInput) : RunResult :=
  let pdf_data := processPdf inp.primary inp.secondary inp.sigPages inp.min_signatures
  if pdf_data.processing_status = "error" then
    { processing_steps := [("pdf_processing", "failed")]
      pdf_processing := pdf_data
      llm_evaluation := none
      final_result := .errorResult
        ("PDF processing failed: " ++ pdf_data.error.getD "Unknown error") }
  else
    let llm_result := evaluatePdf pdf_data.validation_data inp.llm
    { processing_steps :=
        [("pdf_processing", "completed"), ("llm_evaluation", "completed"),
         ("final_decision", "completed")]
      pdf_processing := pdf_data
      llm_evaluation := some llm_result
      final_result := .decided (makeFinalDecision pdf_data llm_result) }

/-! ## The rule engine (`llm_judge.prepare_issues`)

`REQUIRED_FIELDS` of `llm_judge.py` lists the same ten names in the
same order as the `field_patterns` dict, so `SCHEMA` serves for both.
The dict values reaching these checks are strings (the validation data of
the pipeline holds extracted field strings), so the
`isinstance`/`str()` coercion branch is not modelled. -/

/-- Decimal value of a digit string. -/
def digitsVal (ds : List Char) : Nat :=
  ds.foldl (fun a c => a * 10 + (c.toNat - 48)) 0

/-- Month abbreviations accepted by `%b` in the C locale. -/
def monthAbbr : List (String × Nat) :=
  [("jan", 1), ("feb", 2), ("mar", 3), ("apr", 4), ("may", 5), ("jun", 6),
   ("jul", 7), ("aug", 8), ("sep", 9), ("oct", 10), ("nov", 11), ("dec", 12)]

/-- Month length with the Gregorian leap rule, as validated by
`datetime`. -/
def daysInMonth (y m : Nat) : Nat :=
  if m = 2 then
    if y % 4 = 0 ∧ (y % 100 ≠ 0 ∨ y % 400 = 0) then 29 else 28
  else if m = 4 ∨ m = 6 ∨ m = 9 ∨ m = 11 then 30
  else 31

/-- `datetime.strptime(s, "%d %b %Y")`: day of 1–2 digits, a 3-letter
English month abbreviation (case-insensitive), a 4-digit year, single
runs of whitespace between them, nothing else; the day is validated
against the month length (Gregorian leap rule).  Returns (year, month,
day). -/
def parseDMY (s : String) : Option (Nat × Nat × Nat) :=
  let cs := s.data
  let ds := cs.takeWhile Char.isDigit
  if ds.isEmpty ∨ 2 < ds.length then none
  else
    let day := digitsVal ds
    let r1 := cs.drop ds.length
    let ws1 := r1.takeWhile isPyWs
    if ws1.isEmpty then none
    else
      let r2 := r1.drop ws1.length
      let mcs := r2.takeWhile Char.isAlpha
      if mcs.length ≠ 3 then none
      else
        match (monthAbbr.lookup (String.mk (mcs.map Char.toLower))) with
        | none => none
        | some m =>
          let r3 := r2.drop 3
          let ws2 := r3.takeWhile isPyWs
          if ws2.isEmpty then none
          else
            let r4 := r3.drop ws2.length
            let ys := r4.takeWhile Char.isDigit
            if ys.length ≠ 4 ∨ ¬ (r4.drop 4).isEmpty then none
            else
              let y := digitsVal ys
              if y = 0 ∨ day = 0 ∨ daysInMonth y m < day then none
              else some (y, m, day)

/-- Numeric key for comparing `(year, month, day)` triples the way
`datetime` orders dates (month ≤ 12 and day ≤ 31, so this is faithful). -/
def dateKey (d : Nat × Nat × Nat) : Nat := d.1 * 10000 + d.2.1 * 100 + d.2.2

/-- One `HH`/`MM`/`SS` component: 1–2 digits, value at most `bound`. -/
def parseComp (cs : List Char) (bound : Nat) : Option (Nat × List Char) :=
  let ds := cs.takeWhile Char.isDigit
  if ds.isEmpty ∨ 2 < ds.length then none
  else
    let v := digitsVal ds
    if bound < v then none else some (v, cs.drop ds.length)

/-- `datetime.strptime(s, "%H:%M:%S")`. -/
def parseHMS (s : String) : Option (Nat × Nat × Nat) :=
  match parseComp s.data 23 with
  | none => none
  | some (h, r1) =>
    match r1 with
    | ':' :: r2 =>
      match parseComp r2 59 with
      | none => none
      | some (m, r3) =>
        match r3 with
        | ':' :: r4 =>
          match parseComp r4 59 with
          | none => none
          | some (sec, r5) => if r5.isEmpty then some (h, m, sec) else none
        | _ => none
    | _ => none

/-- The `(issues, all_filled, empty_fields)` triple threaded through
`prepare_issues`. -/
structure RuleState where
  issues : List String
  all_filled : Bool
  empty_fields : List String
  deriving DecidableEq, Repr

def missingMsg (f : FieldName) : String :=
  "Field \x27" ++ pyName f ++ "\x27 kosong atau tidak diisi"

/-- The required-field loop body. -/
def fieldStep (get : FieldName → String) (st : RuleState) (f : FieldName) : RuleState :=
  if pyStrip (get f) = "" then
    ⟨st.issues ++ [missingMsg f], false, st.empty_fields ++ [pyName f]⟩
  else st

/-- `"@infomedia.co.id" not in ocr_data["Email"]` (raw value, not stripped). -/
def emailStep (get : FieldName → String) (st : RuleState) : RuleState :=
  if pyStrip (get .email) ≠ "" then
    if ¬ strContains (get .email) "@infomedia.co.id" = true then
      ⟨st.issues ++ ["Email tidak sesuai format perusahaan"], false, st.empty_fields⟩
    else st
  else st

/-- `not nik.isdigit() or len(nik) < 5` on the stripped NIK. -/
def nikStep (get : FieldName → String) (st : RuleState) : RuleState :=
  if pyStrip (get .nik) ≠ "" then
    let nik := pyStrip (get .nik)
    if ¬ pyIsdigit nik = true ∨ nik.length < 5 then
      ⟨st.issues ++ ["NIK tidak valid"], false, st.empty_fields⟩
    else st
  else st

/-- Date range: split on the en-dash (exactly two parts, else the
unpacking raises and the `except` fires), `strptime` both sides, and
flag `start >= end`. -/
def dateStep (get : FieldName → String) (st : RuleState) : RuleState :=
  if pyStrip (get .rangeTanggal) ≠ "" then
    match pySplit '–' (get .rangeTanggal) with
    | [a, b] =>
      match parseDMY (pyStrip a), parseDMY (pyStrip b) with
      | some d1, some d2 =>
        if dateKey d2 ≤ dateKey d1 then
          ⟨st.issues ++ ["Range Tanggal tidak logis (mulai >= akhir)"], false, st.empty_fields⟩
        else st
      | _, _ => ⟨st.issues ++ ["Format Range Tanggal salah"], false, st.empty_fields⟩
    | _ => ⟨st.issues ++ ["Format Range Tanggal salah"], false, st.empty_fields⟩
  else st

/-- Time range: split on `-` (exactly two parts), `strptime` both sides
as `%H:%M:%S`; no ordering check. -/
def timeStep (get : FieldName → String) (st : RuleState) : RuleState :=
  if pyStrip (get .rangeWaktu) ≠ "" then
    match pySplit '-' (get .rangeWaktu) with
    | [a, b] =>
      match parseHMS (pyStrip a), parseHMS (pyStrip b) with
      | some _, some _ => st
      | _, _ => ⟨st.issues ++ ["Format Range Waktu salah"], false, st.empty_fields⟩
    | _ => ⟨st.issues ++ ["Format Range Waktu salah"], false, st.empty_fields⟩
  else st

/-- `ocr_data["Nama"].strip() not in ocr_data["User VPN"]`. -/
def nameStep (get : FieldName → String) (st : RuleState) : RuleState :=
  if pyStrip (get .userVPN) ≠ "" ∧ pyStrip (get .nama) ≠ "" then
    if ¬ strContains (get .userVPN) (pyStrip (get .nama)) = true then
      ⟨st.issues ++ ["User VPN tidak cocok dengan nama peminta"], false, st.empty_fields⟩
    else st
  else st

def sigStep (signature_valid : Bool) (st : RuleState) : RuleState :=
  if ¬ signature_valid = true then
    ⟨st.issues ++ ["Tanda tangan tidak valid"], false, st.empty_fields⟩
  else st

/-- `llm_judge.prepare_issues(ocr_data, signature_valid)` where `get`
models `ocr_data.get(name, "")`. -/
def prepareIssues (get : FieldName → String) (signature_valid : Bool) : RuleState :=
  sigStep signature_valid
    (nameStep get
      (timeStep get
        (dateStep get
          (nikStep get
            (emailStep get
              (SCHEMA.foldl (fieldStep get) ⟨[], true, []⟩))))))

/-- `judge_form_vpn`: `preliminary_valid = all_filled and signature_valid`. -/
def preliminaryValid (get : FieldName → String) (signature_valid : Bool) : Bool :=
  (prepareIssues get signature_valid).all_filled && signature_valid

/-! ## Spec-side descriptions

Check-by-check issue blocks, used to state that the rule engine emits
its issues in the documented order with one issue per failing check, and
the analogous blocks for the Gemini fallback. -/

/-- Issue contributed per blank required field, in schema order. -/
def missingBlock (get : FieldName → String) : List String :=
  SCHEMA.flatMap (fun f => if pyStrip (get f) = "" then [missingMsg f] else [])

/-- The blank required fields recorded in `empty_fields`, in schema order. -/
def missingNames (get : FieldName → String) : List String :=
  SCHEMA.flatMap (fun f => if pyStrip (get f) = "" then [pyName f] else [])

/-- Issue contributed by the email-domain check. -/
def emailBlock (get : FieldName → String) : List String :=
  if pyStrip (get .email) ≠ "" ∧ ¬ strContains (get .email) "@infomedia.co.id" = true then
    ["Email tidak sesuai format perusahaan"]
  else []

/-- Issue contributed by the NIK check. -/
def nikBlock (get : FieldName → String) : List String :=
  if pyStrip (get .nik) ≠ "" ∧
      (¬ pyIsdigit (pyStrip (get .nik)) = true ∨ (pyStrip (get .nik)).length < 5) then
    ["NIK tidak valid"]
  else []

/-- Issue contributed by the date-range check. -/
def dateBlock (get : FieldName → String) : List String :=
  if pyStrip (get .rangeTanggal) = "" then []
  else
    match pySplit '–' (get .rangeTanggal) with
    | [a, b] =>
      match parseDMY (pyStrip a), parseDMY (pyStrip b) with
      | some d1, some d2 =>
        if dateKey d2 ≤ dateKey d1 then ["Range Tanggal tidak logis (mulai >= akhir)"] else []
      | _, _ => ["Format Range Tanggal salah"]
    | _ => ["Format Range Tanggal salah"]

/-- Issue contributed by the time-range check. -/
def timeBlock (get : FieldName → String) : List String :=
  if pyStrip (get .rangeWaktu) = "" then []
  else
    match pySplit '-' (get .rangeWaktu) with
    | [a, b] =>
      match parseHMS (pyStrip a), parseHMS (pyStrip b) with
      | some _, some _ => []
      | _, _ => ["Format Range Waktu salah"]
    | _ => ["Format Range Waktu salah"]

/-- Issue contributed by the Name-inside-VPNUser check. -/
def nameBlock (get : FieldName → String) : List String :=
  if (pyStrip (get .userVPN) ≠ "" ∧ pyStrip (get .nama) ≠ "") ∧
      ¬ strContains (get .userVPN) (pyStrip (get .nama)) = true then
    ["User VPN tidak cocok dengan nama peminta"]
  else []

/-- Issue contributed by the signature check. -/
def sigBlock (signature_valid : Bool) : List String :=
  if signature_valid then [] else ["Tanda tangan tidak valid"]

/-- The full issue list in documented check order. -/
def ruleBlocks (get : FieldName → String) (signature_valid : Bool) : List String :=
  missingBlock get ++ emailBlock get ++ nikBlock get ++ dateBlock get ++
    timeBlock get ++ nameBlock get ++ sigBlock signature_valid

/-- Spec-side score of one keyword set: how many of its keywords occur
(case-insensitively) in the text, each counted at most once. -/
def matchedCount (keys : List String) (text : String) : Nat :=
  keys.countP (fun k => strContains (strLower text) k)

/-! ### Spec-side description of the Gemini fallback checks -/

def fbMissingBlock (vd : ValidationData) : List String :=
  SCHEMA.flatMap (fun f =>
    if pyStrip (vd.get f) = "" then ["Field \x27" ++ pyName f ++ "\x27 is missing"] else [])

def fbEmailBlock (vd : ValidationData) : List String :=
  if vd.get .email ≠ "" ∧ ¬ strContains (vd.get .email) "@infomedia.co.id" = true then
    ["Email must use @infomedia.co.id domain"]
  else []

def fbSigBlock (vd : ValidationData) : List String :=
  if vd.signature_count < 3 then
    ["Insufficient signatures: " ++ toString vd.signature_count ++ "/3 required"]
  else []

/-! ### Spec-side page-skipping signature detection

Follows the wording of the spec for `PageSignatureFailure` ("a page-level
failure is treated as zero instances for that page — it does not abort
the whole document"): a failing page contributes nothing and the loop
continues with the remaining pages.  Written only to compare against
`detectSignatures`, whose `try` block wraps the whole loop. -/

def specSkipSigLoop :
    List (Except String (List Contour)) → Nat → Nat × List SigLocation × List SigDetail →
      Nat × List SigLocation × List SigDetail
  | [], _, acc => acc
  | Except.error _ :: rest, page_num, acc => specSkipSigLoop rest (page_num + 1) acc
  | Except.ok cs :: rest, page_num, acc =>
    specSkipSigLoop rest (page_num + 1) (cs.foldl (processContour page_num) acc)

def specSkipDetectSignatures (pages : List (Except String (List Contour)))
    (min_signatures : Nat) : SignatureInfo :=
  let r := specSkipSigLoop pages 0 (0, [], [])
  { signature_count := r.1
    signature_locations := r.2.1
    signature_valid := decide (min_signatures ≤ r.1)
    signature_details := r.2.2
    error := none }

/-! ### Concrete inputs used by witnesses and counterexamples -/

/-- A contour that passes the signature filter (area 1000 in (500,50000),
width 100 > 50, height 30 > 20, ratio 10/3 in (1.5, 8)). -/
def goodContour : Contour := ⟨1000, 10, 20, 100, 30⟩

/-- One page carrying `c` retained-shape contours. -/
def mkPages (c : Nat) : List (Except String (List Contour)) :=
  [Except.ok (List.replicate c goodContour)]

/-- Three pages where the middle one raises during processing. -/
def c9Pages : List (Except String (List Contour)) :=
  [Except.ok [goodContour], Except.error "page unreadable", Except.ok [goodContour]]

/-- A parsed judge response that approves the document. -/
def jpTrue : JudgeParsed :=
  ⟨some true, some "approved_for_processing", none, some [], some "ok",
   none, none, none, none⟩

/-- A parsed judge response that rejects the document. -/
def jpReject : JudgeParsed :=
  ⟨some false, some "rejected_with_reason", none,
   some ["LLM rejected the document"], some "bad",
   none, none, none, none⟩

/-- A run whose document text contains no form fields, with
`min_signatures = 0` (so the signature evidence is valid) and an
approving judge: the judge and signature conjuncts hold even though the
rule engine would flag every field as missing. -/
def c1Inp : PipelineInput :=
  { primary := Except.ok [("", [])]
    secondary := Except.error "unused"
    sigPages := []
    min_signatures := 0
    llm := .success jpTrue }

/-- The same run with `min_signatures = 5`, so the signature evidence is
invalid. -/
def c1InpSigFail : PipelineInput :=
  { primary := Except.ok [("", [])]
    secondary := Except.error "unused"
    sigPages := []
    min_signatures := 5
    llm := .success jpTrue }

/-- A run in which both text-extraction backends raise. -/
def c2Inp : PipelineInput :=
  { primary := Except.error "could not open file"
    secondary := Except.error "no such file: missing.pdf"
    sigPages := []
    min_signatures := 3
    llm := .success jpReject }

/-- A fully-filled field set. -/
def gOk : FieldName → String
  | .nik => "1234567890"
  | .nama => "John Doe"
  | .noTel => "0812"
  | .email => "john@infomedia.co.id"
  | .departement => "IT"
  | .manager => "Jane"
  | .rangeTanggal => "01 Jan 2024 – 05 Jan 2024"
  | .rangeWaktu => "07:00:00-17:00:00"
  | .approvedBy => "Boss"
  | .userVPN => "John Doe VPN"

/-- The same field set with a non-numeric NIK. -/
def gBad (f : FieldName) : String :=
  if f = .nik then "12a45" else gOk f

/-- Validation data whose only rule violation is the malformed NIK;
three signatures were detected. -/
def vdBad : ValidationData :=
  { fields := fun f => some (gBad f)
    signature_valid := true
    signature_count := 3
    document_type := "new_vpn_request"
    raw_text := "doc" }

/-- A run whose document text yields exactly one extracted field. -/
def c8Inp : PipelineInput :=
  { primary := Except.ok [("NIK: 12345", [])]
    secondary := Except.error "unused"
    sigPages := []
    min_signatures := 0
    llm := .success jpTrue }

/-! ## Rule-engine lemmas -/

theorem isEmpty_append (l1 l2 : List α) :
    (l1 ++ l2).isEmpty = (l1.isEmpty && l2.isEmpty) := by
  cases l1 <;> simp

theorem foldl_fieldStep (get : FieldName → String) (l : List FieldName)
    (st : RuleState) :
    l.foldl (fieldStep get) st =
      ⟨st.issues ++ l.flatMap (fun f => if pyStrip (get f) = "" then [missingMsg f] else []),
       st.all_filled &&
         (l.flatMap (fun f => if pyStrip (get f) = "" then [missingMsg f] else [])).isEmpty,
       st.empty_fields ++ l.flatMap (fun f => if pyStrip (get f) = "" then [pyName f] else [])⟩ := by
  induction l generalizing st with
  | nil =>
    obtain ⟨i, a, e⟩ := st
    simp
  | cons f rest ih =>
    obtain ⟨i, a, e⟩ := st
    by_cases h : pyStrip (get f) = ""
    · simp [fieldStep, h, ih, List.append_assoc]
    · simp [fieldStep, h, ih]

theorem emailStep_eq (get : FieldName → String) (st : RuleState) :
    emailStep get st =
      ⟨st.issues ++ emailBlock get, st.all_filled && (emailBlock get).isEmpty,
       st.empty_fields⟩ := by
  obtain ⟨i, a, e⟩ := st
  by_cases h1 : pyStrip (get .email) ≠ ""
  · by_cases h2 : strContains (get .email) "@infomedia.co.id" = true
    · simp [emailStep, emailBlock, h1, h2]
    · simp [emailStep, emailBlock, h1, h2]
  · simp [emailStep, emailBlock, h1]

theorem nikStep_eq (get : FieldName → String) (st : RuleState) :
    nikStep get st =
      ⟨st.issues ++ nikBlock get, st.all_filled && (nikBlock get).isEmpty,
       st.empty_fields⟩ := by
  obtain ⟨i, a, e⟩ := st
  by_cases h1 : pyStrip (get .nik) ≠ ""
  · by_cases h2 : pyIsdigit (pyStrip (get .nik)) = false ∨ (pyStrip (get .nik)).length < 5
    · simp [nikStep, nikBlock, h1, h2]
    · simp [nikStep, nikBlock, h1, h2]
  · simp [nikStep, nikBlock, h1]

theorem dateStep_eq (get : FieldName → String) (st : RuleState) :
    dateStep get st =
      ⟨st.issues ++ dateBlock get, st.all_filled && (dateBlock get).isEmpty,
       st.empty_fields⟩ := by
  obtain ⟨i, a, e⟩ := st
  by_cases h1 : pyStrip (get .rangeTanggal) = ""
  · simp [dateStep, dateBlock, h1]
  · simp only [dateStep, dateBlock, h1, ne_eq, not_false_eq_true, if_true, if_false]
    cases hs : pySplit '–' (get .rangeTanggal) with
    | nil => simp
    | cons a t =>
      cases t with
      | nil => simp
      | cons b t2 =>
        cases t2 with
        | nil =>
          cases hd1 : parseDMY (pyStrip a) with
          | none =>
            cases hd2 : parseDMY (pyStrip b) <;> simp [hd1, hd2]
          | some d1 =>
            cases hd2 : parseDMY (pyStrip b) with
            | none => simp [hd1, hd2]
            | some d2 =>
              by_cases hk : dateKey d2 ≤ dateKey d1 <;> simp [hd1, hd2, hk]
        | cons c t3 => simp

theorem timeStep_eq (get : FieldName → String) (st : RuleState) :
    timeStep get st =
      ⟨st.issues ++ timeBlock get, st.all_filled && (timeBlock get).isEmpty,
       st.empty_fields⟩ := by
  obtain ⟨i, a, e⟩ := st
  by_cases h1 : pyStrip (get .rangeWaktu) = ""
  · simp [timeStep, timeBlock, h1]
  · simp only [timeStep, timeBlock, h1, ne_eq, not_false_eq_true, if_true, if_false]
    cases hs : pySplit '-' (get .rangeWaktu) with
    | nil => simp
    | cons a t =>
      cases t with
      | nil => simp
      | cons b t2 =>
        cases t2 with
        | nil =>
          cases hd1 : parseHMS (pyStrip a) with
          | none => cases hd2 : parseHMS (pyStrip b) <;> simp [hd1, hd2]
          | some d1 =>
            cases hd2 : parseHMS (pyStrip b) with
            | none => simp [hd1, hd2]
            | some d2 => simp [hd1, hd2]
        | cons c t3 => simp

theorem nameStep_eq (get : FieldName → String) (st : RuleState) :
    nameStep get st =
      ⟨st.issues ++ nameBlock get, st.all_filled && (nameBlock get).isEmpty,
       st.empty_fields⟩ := by
  obtain ⟨i, a, e⟩ := st
  by_cases h1 : pyStrip (get .userVPN) ≠ "" ∧ pyStrip (get .nama) ≠ ""
  · by_cases h2 : strContains (get .userVPN) (pyStrip (get .nama)) = true
    · simp [nameStep, nameBlock, h1, h2]
    · simp [nameStep, nameBlock, h1, h2]
  · simp [nameStep, nameBlock, h1]

theorem sigStep_eq (signature_valid : Bool) (st : RuleState) :
    sigStep signature_valid st =
      ⟨st.issues ++ sigBlock signature_valid,
       st.all_filled && (sigBlock signature_valid).isEmpty, st.empty_fields⟩ := by
  obtain ⟨i, a, e⟩ := st
  cases signature_valid <;> simp [sigStep, sigBlock]

/-- `prepare_issues` emits exactly the documented blocks in order, its
`all_filled` flag is the emptiness of that list, and `empty_fields`
lists the blank schema fields in order. -/
theorem prepareIssues_eq (get : FieldName → String) (signature_valid : Bool) :
    prepareIssues get signature_valid =
      ⟨ruleBlocks get signature_valid, (ruleBlocks get signature_valid).isEmpty,
       missingNames get⟩ := by
  unfold prepareIssues
  rw [foldl_fieldStep, emailStep_eq, nikStep_eq, dateStep_eq, timeStep_eq,
    nameStep_eq, sigStep_eq]
  simp [ruleBlocks, missingBlock, missingNames, isEmpty_append,
    List.append_assoc, Bool.and_assoc]

/-! ## Signature-detection lemmas -/

theorem retained_goodContour : retainedContour goodContour = true := by
  simp only [retainedContour, goodContour, Bool.and_eq_true, decide_eq_true_eq]
  norm_num

theorem foldl_processContour_count (c : Nat) (pn : Nat)
    (acc : Nat × List SigLocation × List SigDetail) :
    ((List.replicate c goodContour).foldl (processContour pn) acc).1 = acc.1 + c := by
  induction c generalizing acc with
  | zero => simp
  | succ n ih =>
    simp only [List.replicate_succ, List.foldl_cons, processContour,
      retained_goodContour, if_true]
    rw [ih]
    omega

theorem detect_mkPages_count (c : Nat) (m : Nat) :
    (detectSignatures (mkPages c) m).signature_count = c := by
  simp only [detectSignatures, mkPages, sigLoop, foldl_processContour_count]
  omega

theorem foldl_processContour_inv (pn : Nat) (cs : List Contour)
    (acc : Nat × List SigLocation × List SigDetail)
    (h1 : acc.1 = acc.2.1.length) (h2 : acc.1 = acc.2.2.length) :
    (cs.foldl (processContour pn) acc).1 = (cs.foldl (processContour pn) acc).2.1.length ∧
      (cs.foldl (processContour pn) acc).1 = (cs.foldl (processContour pn) acc).2.2.length := by
  induction cs generalizing acc with
  | nil => exact ⟨h1, h2⟩
  | cons c rest ih =>
    simp only [List.foldl_cons]
    by_cases hr : retainedContour c = true
    · refine ih _ ?_ ?_ <;> simp [processContour, hr] <;> omega
    · refine ih _ ?_ ?_ <;> simp [processContour, hr] <;> omega

theorem sigLoop_inv (pages : List (Except String (List Contour))) :
    ∀ (pn : Nat) (acc : Nat × List SigLocation × List SigDetail),
      acc.1 = acc.2.1.length → acc.1 = acc.2.2.length →
      (sigLoop pages pn acc).1.1 = (sigLoop pages pn acc).1.2.1.length ∧
        (sigLoop pages pn acc).1.1 = (sigLoop pages pn acc).1.2.2.length := by
  induction pages with
  | nil => intro pn acc h1 h2; exact ⟨h1, h2⟩
  | cons p rest ih =>
    intro pn acc h1 h2
    cases p with
    | error e => exact ⟨h1, h2⟩
    | ok cs =>
      have h := foldl_processContour_inv pn cs acc h1 h2
      exact ih (pn + 1) _ h.1 h.2

theorem sigLoop_append_error (err : String) (rest : List (Except String (List Contour)))
    (pre : List (List Contour)) :
    ∀ (pn : Nat) (acc : Nat × List SigLocation × List SigDetail),
      sigLoop (pre.map Except.ok ++ Except.error err :: rest) pn acc =
        ((sigLoop (pre.map Except.ok) pn acc).1, some err) := by
  induction pre with
  | nil => intro pn acc; rfl
  | cons cs t ih =>
    intro pn acc
    simp only [List.map_cons, List.cons_append, sigLoop]
    exact ih (pn + 1) _

/-! ## Issue-block size lemmas -/

theorem emailBlock_len (get : FieldName → String) : (emailBlock get).length ≤ 1 := by
  unfold emailBlock
  split <;> simp

theorem nikBlock_len (get : FieldName → String) : (nikBlock get).length ≤ 1 := by
  unfold nikBlock
  split <;> simp

theorem dateBlock_len (get : FieldName → String) : (dateBlock get).length ≤ 1 := by
  unfold dateBlock
  repeat' split
  all_goals simp

theorem timeBlock_len (get : FieldName → String) : (timeBlock get).length ≤ 1 := by
  unfold timeBlock
  repeat' split
  all_goals simp

theorem nameBlock_len (get : FieldName → String) : (nameBlock get).length ≤ 1 := by
  unfold nameBlock
  split <;> simp

theorem sigBlock_len (signature_valid : Bool) : (sigBlock signature_valid).length ≤ 1 := by
  unfold sigBlock
  split <;> simp

/-! ## Association-list lemmas for field extraction -/

theorem lookupFM_notMem (h : FieldName → Option String) (l : List FieldName)
    (f : FieldName) (hf : f ∉ l) :
    (l.filterMap (fun g => (h g).map (fun v => (g, v)))).lookup f = none := by
  induction l with
  | nil => rfl
  | cons g rest ih =>
    rw [List.mem_cons, not_or] at hf
    cases hg : h g with
    | none =>
      simp only [List.filterMap_cons, hg]
      exact ih hf.2
    | some v =>
      have hb : (f == g) = false := by simpa using hf.1
      simp only [List.filterMap_cons, hg, Option.map_some, List.lookup, hb]
      exact ih hf.2

theorem lookupFM_mem (h : FieldName → Option String) (l : List FieldName)
    (hnd : l.Nodup) (f : FieldName) (hf : f ∈ l) :
    (l.filterMap (fun g => (h g).map (fun v => (g, v)))).lookup f = h f := by
  induction l with
  | nil => cases hf
  | cons g rest ih =>
    rw [List.nodup_cons] at hnd
    rcases List.mem_cons.mp hf with hfg | hfr
    · subst hfg
      cases hg : h f with
      | none =>
        simp only [List.filterMap_cons, hg]
        exact lookupFM_notMem h rest f hnd.1
      | some v =>
        have hb : (f == f) = true := by simp
        simp only [List.filterMap_cons, hg, Option.map_some, List.lookup, hb]
    · have hne : f ≠ g := fun hEq => hnd.1 (hEq ▸ hfr)
      cases hg : h g with
      | none =>
        simp only [List.filterMap_cons, hg]
        exact ih hnd.2 hfr
      | some v =>
        have hb : (f == g) = false := by simpa using hne
        simp only [List.filterMap_cons, hg, Option.map_some, List.lookup, hb]
        exact ih hnd.2 hfr

/-- `detectDocumentType` in terms of the spec-side keyword scores
(definitional: the scores are the same `countP`). -/
theorem detectDocumentType_eq (text : String) :
    detectDocumentType text =
      if matchedCount extensionKeywords text < matchedCount newVpnKeywords text then
        ⟨"new_vpn_request",
         min (9/10) (1/2 + (matchedCount newVpnKeywords text : ℚ) * (1/10)),
         matchedCount newVpnKeywords text, matchedCount extensionKeywords text⟩
      else if matchedCount newVpnKeywords text < matchedCount extensionKeywords text then
        ⟨"vpn_extension",
         min (9/10) (1/2 + (matchedCount extensionKeywords text : ℚ) * (1/10)),
         matchedCount newVpnKeywords text, matchedCount extensionKeywords text⟩
      else
        ⟨"unknown", 3/10, matchedCount newVpnKeywords text,
         matchedCount extensionKeywords text⟩ := rfl

/-! ## Pipeline lemmas -/

theorem processPdf_status (p : Except String (List (String × List Table)))
    (s : Except String (List String)) (g : List (Except String (List Contour)))
    (m : Nat) : (processPdf p s g m).processing_status = "success" := rfl

/-- The error branch of `validate_pdf_file` is unreachable: every run
reaches the final-decision step. -/
theorem validate_reaches_decision (inp : PipelineInput) :
    (validatePdfFile inp).final_result =
      FinalOutcome.decided
        (makeFinalDecision
          (processPdf inp.primary inp.secondary inp.sigPages inp.min_signatures)
          (evaluatePdf
            (processPdf inp.primary inp.secondary inp.sigPages inp.min_signatures).validation_data
            inp.llm)) := rfl

theorem validate_steps (inp : PipelineInput) :
    (validatePdfFile inp).processing_steps =
      [("pdf_processing", "completed"), ("llm_evaluation", "completed"),
       ("final_decision", "completed")] := rfl

theorem makeFinalDecision_status_ne_error (pd : ProcessResult) (lr : JudgeResult) :
    (makeFinalDecision pd lr).status ≠ "error" := by
  simp only [makeFinalDecision]
  by_cases h : (lr.is_valid && pd.signature_info.signature_valid) = true
  · simp [h]
  · simp [h]

theorem validate_statusOf_ne_error (inp : PipelineInput) :
    (validatePdfFile inp).final_result.statusOf ≠ "error" := by
  rw [validate_reaches_decision]
  exact makeFinalDecision_status_ne_error _ _

theorem makeFinalDecision_completeness (pd : ProcessResult) (lr : JudgeResult) :
    (makeFinalDecision pd lr).form_fields_completeness =
      (if pd.form_fields.isEmpty then 0
       else ((pd.form_fields.countP (fun p => pyStrip p.2 ≠ "")) : ℚ) /
         (pd.form_fields.length : ℚ)) := rfl

theorem filter_map_missing (vd : ValidationData) (l : List FieldName) :
    (l.filter (fun f => pyStrip (vd.get f) = "")).map
        (fun f => "Field \x27" ++ pyName f ++ "\x27 is missing") =
      l.flatMap (fun f =>
        if pyStrip (vd.get f) = "" then ["Field \x27" ++ pyName f ++ "\x27 is missing"]
        else []) := by
  induction l with
  | nil => rfl
  | cons a t ih => by_cases h : pyStrip (vd.get a) = "" <;> simp [h, ih]

/-! ## Claim theorems -/

/-- C10: for every sequence of page outcomes (including ones whose
processing raises partway through the page loop) and every configured
minimum, the returned evidence satisfies
`signature_count = signature_locations.length = signature_details.length`:
the count and both per-instance lists are incremented together per
retained contour. -/
theorem c10_signature_evidence_invariant
    (pages : List (Except String (List Contour))) (min_signatures : Nat) :
    (detectSignatures pages min_signatures).signature_count =
        (detectSignatures pages min_signatures).signature_locations.length ∧
      (detectSignatures pages min_signatures).signature_count =
        (detectSignatures pages min_signatures).signature_details.length := by
  simpa [detectSignatures] using sigLoop_inv pages 0 (0, [], []) rfl rfl

/-- C4: on a page with `c` filter-passing contours, the detected count is
`c` and the valid flag is `count ≥ min_signatures`; in general the valid
flag equals `min_signatures ≤ signature_count` for every input, and at
the boundary `c = m − 1` is invalid while `c = m` is valid. -/
theorem c4_signature_threshold (c m : Nat) :
    (detectSignatures (mkPages c) m).signature_count = c ∧
      (detectSignatures (mkPages c) m).signature_valid = decide (m ≤ c) ∧
      (1 ≤ m → (detectSignatures (mkPages (m - 1)) m).signature_valid = false) ∧
      (detectSignatures (mkPages m) m).signature_valid = true ∧
      ∀ pages : List (Except String (List Contour)),
        (detectSignatures pages m).signature_valid =
          decide (m ≤ (detectSignatures pages m).signature_count) := by
  refine ⟨detect_mkPages_count c m, ?_, ?_, ?_, ?_⟩
  · have h := detect_mkPages_count c m
    simp only [detectSignatures] at h ⊢
    rw [h]
  · intro hm
    have h := detect_mkPages_count (m - 1) m
    simp only [detectSignatures] at h ⊢
    rw [h]
    simp
    omega
  · have h := detect_mkPages_count m m
    simp only [detectSignatures] at h ⊢
    rw [h]
    simp
  · intro pages
    simp only [detectSignatures]

/-- Witness for `c4_signature_threshold` at `c = 2`, `m = 3` (the default
minimum): two detected signatures are insufficient, three suffice. -/
theorem c4_signature_threshold_witness :
    (detectSignatures (mkPages (3 - 1)) 3).signature_valid = false ∧
      (detectSignatures (mkPages 3) 3).signature_valid = true :=
  ⟨(c4_signature_threshold 2 3).2.2.1 (by decide),
   (c4_signature_threshold 2 3).2.2.2.1⟩

/-- C9 (amended): a failure while processing a page ends the page loop:
pages before it keep their contributions, the failing page and all later
pages contribute nothing, the error message is recorded, and the
validity flag is still computed from the partial count; the document
pipeline itself is not aborted (`processing_status` stays `"success"`
and the run reaches a decided verdict). -/
theorem c9_page_failure_stops_loop (pre : List (List Contour)) (err : String)
    (rest : List (Except String (List Contour))) (m : Nat) :
    detectSignatures (pre.map Except.ok ++ Except.error err :: rest) m =
        { detectSignatures (pre.map Except.ok) m with error := some err } ∧
      ∀ (p : Except String (List (String × List Table)))
        (s : Except String (List String)) (llm : LlmOutcome),
        (validatePdfFile
            ⟨p, s, pre.map Except.ok ++ Except.error err :: rest, m, llm⟩).final_result.statusOf
          ≠ "error" := by
  constructor
  · simp only [detectSignatures, sigLoop_append_error]
  · intro p s llm
    exact validate_statusOf_ne_error _

/-- Witness for `c9_page_failure_stops_loop` at one good page followed
by a failing page. -/
theorem c9_page_failure_stops_loop_witness :
    detectSignatures ([[goodContour]].map Except.ok ++ Except.error "pg" :: []) 3 =
      { detectSignatures ([[goodContour]].map Except.ok) 3 with error := some "pg" } :=
  (c9_page_failure_stops_loop [[goodContour]] "pg" [] 3).1

/-- C9 (counterexample): with a good first page, a failing second page
and a good third page, the code counts only the signature on the first
page (count 1), while the page-skipping detection described in the spec would count both
good pages (count 2) — detection does not continue past the failure. -/
theorem c9_counterexample :
    (detectSignatures c9Pages 3).signature_count = 1 ∧
      (detectSignatures c9Pages 3).error = some "page unreadable" ∧
      (specSkipDetectSignatures c9Pages 3).signature_count = 2 := by
  refine ⟨?_, ?_, ?_⟩
  · simp [detectSignatures, c9Pages, sigLoop, processContour, retained_goodContour]
  · simp [detectSignatures, c9Pages, sigLoop, processContour, retained_goodContour]
  · simp [specSkipDetectSignatures, c9Pages, specSkipSigLoop, processContour,
      retained_goodContour]

/-- C6: the rule-engine checks run in the fixed order (blank required
fields in schema order, email domain, NIK digits/length, date-range
parse and strict order, time-range parse, Name-within-VPNUser,
signature sufficiency); each failing check contributes exactly one
issue in that order; and `preliminary_valid` holds exactly when no
issue was added and `signature_valid` holds. -/
theorem c6_rule_engine_order (get : FieldName → String) (signature_valid : Bool) :
    (prepareIssues get signature_valid).issues = ruleBlocks get signature_valid ∧
      (prepareIssues get signature_valid).empty_fields = missingNames get ∧
      (emailBlock get).length ≤ 1 ∧ (nikBlock get).length ≤ 1 ∧
      (dateBlock get).length ≤ 1 ∧ (timeBlock get).length ≤ 1 ∧
      (nameBlock get).length ≤ 1 ∧ (sigBlock signature_valid).length ≤ 1 ∧
      (preliminaryValid get signature_valid = true ↔
        ((prepareIssues get signature_valid).issues = [] ∧ signature_valid = true)) := by
  have h := prepareIssues_eq get signature_valid
  refine ⟨by rw [h], by rw [h], emailBlock_len get, nikBlock_len get, dateBlock_len get,
    timeBlock_len get, nameBlock_len get, sigBlock_len signature_valid, ?_⟩
  have hiss : (prepareIssues get signature_valid).issues = ruleBlocks get signature_valid := by
    rw [h]
  have haf : (prepareIssues get signature_valid).all_filled =
      (ruleBlocks get signature_valid).isEmpty := by
    rw [h]
  unfold preliminaryValid
  rw [haf, hiss]
  simp [List.isEmpty_iff, Bool.and_eq_true]

/-- Witness for `c6_rule_engine_order`: on a fully valid field set with
valid signatures, no issue is produced and `preliminary_valid` holds. -/
theorem c6_rule_engine_order_witness : preliminaryValid gOk true = true :=
  ((c6_rule_engine_order gOk true).2.2.2.2.2.2.2.2).mpr ⟨by decide, rfl⟩

/-- C5 (amended): the classifier is a pure function of the text scoring
each keyword set by the number of its keywords that occur
case-insensitively (each keyword counted at most once, not per
occurrence); the strictly higher score wins with confidence
`min(0.9, 0.5 + 0.1·winning_score)`; equal scores (including both zero)
yield `unknown` with confidence 0.3; a text with no keywords yields
`unknown` with confidence 0.3. -/
theorem c5_classifier (text : String) :
    (detectDocumentType text).new_vpn_score = matchedCount newVpnKeywords text ∧
      (detectDocumentType text).extension_score = matchedCount extensionKeywords text ∧
      (matchedCount extensionKeywords text < matchedCount newVpnKeywords text →
        detectDocumentType text =
          ⟨"new_vpn_request",
           min (9/10) (1/2 + (matchedCount newVpnKeywords text : ℚ) * (1/10)),
           matchedCount newVpnKeywords text, matchedCount extensionKeywords text⟩) ∧
      (matchedCount newVpnKeywords text < matchedCount extensionKeywords text →
        detectDocumentType text =
          ⟨"vpn_extension",
           min (9/10) (1/2 + (matchedCount extensionKeywords text : ℚ) * (1/10)),
           matchedCount newVpnKeywords text, matchedCount extensionKeywords text⟩) ∧
      (matchedCount newVpnKeywords text = matchedCount extensionKeywords text →
        detectDocumentType text =
          ⟨"unknown", 3/10, matchedCount newVpnKeywords text,
           matchedCount extensionKeywords text⟩) ∧
      detectDocumentType "dokumen tanpa kata kunci" = ⟨"unknown", 3/10, 0, 0⟩ := by
  refine ⟨?_, ?_, ?_, ?_, ?_, ?_⟩
  · rw [detectDocumentType_eq]
    split_ifs <;> rfl
  · rw [detectDocumentType_eq]
    split_ifs <;> rfl
  · intro hlt
    rw [detectDocumentType_eq, if_pos hlt]
  · intro hlt
    rw [detectDocumentType_eq, if_neg (by omega), if_pos hlt]
  · intro heq
    rw [detectDocumentType_eq, if_neg (by omega), if_neg (by omega)]
  · rfl

/-- Witness for `c5_classifier`: a keyword-free text scores 0–0 and is
classified `unknown` with confidence 0.3. -/
theorem c5_classifier_witness :
    detectDocumentType "abc" =
      ⟨"unknown", 3/10, matchedCount newVpnKeywords "abc",
       matchedCount extensionKeywords "abc"⟩ :=
  (c5_classifier "abc").2.2.2.2.1 (by decide)

/-- C5 (counterexample): the text
`"vpn baru vpn baru vpn baru perpanjangan"` contains three occurrences
of "VPN baru" and one of "perpanjangan", yet the classifier scores each
keyword set 1 (keywords are counted at most once, not per occurrence),
so the result is `unknown` with confidence 0.3 — not `new_vpn_request`
with confidence 0.8 as the claim states. -/
theorem c5_counterexample :
    countOccCI "vpn baru vpn baru vpn baru perpanjangan" "VPN baru" = 3 ∧
      countOccCI "vpn baru vpn baru vpn baru perpanjangan" "perpanjangan" = 1 ∧
      detectDocumentType "vpn baru vpn baru vpn baru perpanjangan" =
        ⟨"unknown", 3/10, 1, 1⟩ ∧
      (detectDocumentType "vpn baru vpn baru vpn baru perpanjangan").document_type ≠
        "new_vpn_request" := by
  refine ⟨by decide, by decide, rfl, by decide⟩

/-- C7 (amended): the extracted field set maps each schema field to the
capture of its first match trimmed of whitespace, and a field whose pattern
has no match is absent; in particular absence, not blankness, signals
"no match" — but a match whose capture is whitespace-only is stored as
an empty string, so a present field may be blank. -/
theorem c7_extracted_values (text : String) (f : FieldName) :
    (extractFormFields text).lookup f =
      (findFirst (fieldPat f) text.data).map (fun cap => pyStrip (String.mk cap)) := by
  have hnd : SCHEMA.Nodup := by decide
  have hm : f ∈ SCHEMA := by cases f <;> decide
  have h := lookupFM_mem (fun g => (findFirst (fieldPat g) text.data).map
    (fun cap => pyStrip (String.mk cap))) SCHEMA hnd f hm
  have h2 : extractFormFields text =
      SCHEMA.filterMap (fun g =>
        Option.map (fun v => (g, v))
          (Option.map (fun cap => pyStrip (String.mk cap)) (findFirst (fieldPat g) text.data))) := by
    unfold extractFormFields
    congr 1
    funext g
    cases hg : findFirst (fieldPat g) text.data <;> simp [hg]
  rw [h2]
  exact h

/-- C7 (counterexample): on the text `"Nama 5"` the Nama pattern matches
with a whitespace-only capture, so the field is present with value `""`
— a present field whose trimmed value is blank, contradicting the claim
that every present field is non-blank after trimming. -/
theorem c7_counterexample :
    extractFormFields "Nama 5" = [(FieldName.nama, "")] ∧
      (extractFormFields "Nama 5").lookup FieldName.nama = some "" := by
  exact ⟨by decide, by decide⟩

/-- C1: for every document run with a successfully invoked Judge (the
pipeline always makes the final decision from the verdict returned by
the judge wrapper), the final `is_valid` equals judge-is_valid AND
signature_valid; when `signature_valid` is false the verdict is invalid
regardless of the judge; and the rule-engine `preliminary_valid` is
not a conjunct — witnessed by a run approved as valid while
`preliminary_valid` over the same extracted fields is false. -/
theorem c1_final_combination (inp : PipelineInput) :
    ((validatePdfFile inp).final_result.validOf =
        (((validatePdfFile inp).llm_evaluation.map JudgeResult.is_valid).getD false &&
          (validatePdfFile inp).pdf_processing.signature_info.signature_valid)) ∧
      ((validatePdfFile inp).pdf_processing.signature_info.signature_valid = false →
        (validatePdfFile inp).final_result.validOf = false) ∧
      ((validatePdfFile c1Inp).final_result.validOf = true ∧
        preliminaryValid
          ((validatePdfFile c1Inp).pdf_processing.validation_data).get true = false) := by
  refine ⟨rfl, ?_, by decide, by decide⟩
  intro h
  have h1 : (validatePdfFile inp).final_result.validOf =
      (((validatePdfFile inp).llm_evaluation.map JudgeResult.is_valid).getD false &&
        (validatePdfFile inp).pdf_processing.signature_info.signature_valid) := rfl
  rw [h1, h, Bool.and_false]

/-- Witness for `c1_final_combination`: with insufficient signatures
(`min_signatures = 5`, none detected) and an approving judge, the final
verdict is invalid. -/
theorem c1_final_combination_witness :
    (validatePdfFile c1InpSigFail).final_result.validOf = false :=
  (c1_final_combination c1InpSigFail).2.1 (by decide)

/-- C2: when both text-extraction backends fail, the extraction result
is flagged with an error description and empty text, but the pipeline
does not treat this as fatal: `processing_status` stays `"success"`,
the judge-evaluation and final-decision steps still run on the empty
text, and the final verdict takes the normal rejected/approved path —
`status` is `"rejected_with_reason"`, not the `"error"` the claim (and
the repository test `test_error_handling`) expects. -/
theorem c2_extraction_failure_not_fatal :
    (validatePdfFile c2Inp).pdf_processing.extracted_content.error =
        some "PDF extraction failed: no such file: missing.pdf" ∧
      (validatePdfFile c2Inp).pdf_processing.extracted_content.raw_text = "" ∧
      (validatePdfFile c2Inp).pdf_processing.processing_status = "success" ∧
      (validatePdfFile c2Inp).processing_steps =
        [("pdf_processing", "completed"), ("llm_evaluation", "completed"),
         ("final_decision", "completed")] ∧
      (validatePdfFile c2Inp).llm_evaluation.isSome = true ∧
      (validatePdfFile c2Inp).final_result.statusOf = "rejected_with_reason" ∧
      (validatePdfFile c2Inp).final_result.validOf = false := by
  refine ⟨by decide, by decide, rfl, rfl, rfl, by decide, by decide⟩

/-- C3 (amended): when the Judge call raises or returns unparseable
output, the pipeline substitutes the deterministic fallback verdict,
which re-runs only a subset of the §4.5 rule checks directly against
the fields — required-field presence, email domain, and signature count
≥ 3 (the NIK, date-range, time-range and name-consistency checks are
not re-run) — with confidence fixed at 0.3 and a reasoning string
naming the failure, and the run still reaches a decided verdict (never
`status = "error"`). -/
theorem c3_fallback_verdict (vd : ValidationData) (msg : String) :
    evaluatePdf vd (.exn msg) = createFallbackResult vd ("LLM evaluation error: " ++ msg) ∧
      evaluatePdf vd (.parseError msg) =
        createFallbackResult vd ("JSON parsing error: " ++ msg) ∧
      (createFallbackResult vd msg).confidence = 3/10 ∧
      (createFallbackResult vd msg).reasoning = "Fallback evaluation due to: " ++ msg ∧
      (createFallbackResult vd msg).issues =
        fbMissingBlock vd ++ fbEmailBlock vd ++ fbSigBlock vd ∧
      (createFallbackResult vd msg).is_valid =
        ((createFallbackResult vd msg).issues.isEmpty && decide (3 ≤ vd.signature_count)) ∧
      ∀ (p : Except String (List (String × List Table)))
        (s : Except String (List String)) (g : List (Except String (List Contour)))
        (m : Nat),
        (validatePdfFile ⟨p, s, g, m, .exn msg⟩).final_result.statusOf ≠ "error" := by
  refine ⟨rfl, rfl, rfl, rfl, ?_, rfl, ?_⟩
  · have h0 : (createFallbackResult vd msg).issues =
        (SCHEMA.filter (fun f => pyStrip (vd.get f) = "")).map
            (fun f => "Field \x27" ++ pyName f ++ "\x27 is missing") ++
          fbEmailBlock vd ++ fbSigBlock vd := rfl
    rw [h0, filter_map_missing]
    rfl
  · intro p s g m
    exact validate_statusOf_ne_error _

/-- Witness for `c3_fallback_verdict`: the fallback verdict always
carries confidence 0.3. -/
theorem c3_fallback_verdict_witness :
    (createFallbackResult vdBad "boom").confidence = 3/10 :=
  (c3_fallback_verdict vdBad "boom").2.2.1

/-- C3 (counterexample): on validation data whose only §4.5 violation is
the malformed NIK "12a45" (with three signatures), the §4.5 rule checks
produce the issue "NIK tidak valid", yet the fallback verdict
substituted after a Judge failure reports no issues and is_valid = true
— the fallback does not re-run the same checks as §4.5. -/
theorem c3_counterexample :
    (evaluatePdf vdBad (LlmOutcome.exn "boom")).is_valid = true ∧
      (evaluatePdf vdBad (LlmOutcome.exn "boom")).issues = [] ∧
      (evaluatePdf vdBad (LlmOutcome.exn "boom")).confidence = 3/10 ∧
      prepareIssues vdBad.get true = ⟨["NIK tidak valid"], false, []⟩ := by
  refine ⟨by decide, by decide, rfl, by decide⟩

/-- C8 (amended): the completeness ratio of the final verdict is
(# extracted fields with non-blank value) / (# extracted fields), with
0 when no field was extracted — the denominator is the extracted-field
count, not the ten-field schema size — and the ratio has no influence
on `is_valid`. -/
theorem c8_completeness_ratio (pd : ProcessResult) (lr : JudgeResult) :
    (makeFinalDecision pd lr).form_fields_completeness =
      (if pd.form_fields.isEmpty then 0
       else ((pd.form_fields.countP (fun p => pyStrip p.2 ≠ "")) : ℚ) /
         (pd.form_fields.length : ℚ)) ∧
      ∀ ff : List (FieldName × String),
        (makeFinalDecision { pd with form_fields := ff } lr).is_valid =
          (makeFinalDecision pd lr).is_valid :=
  ⟨rfl, fun _ => rfl⟩

/-- C8 (counterexample): an end-to-end run on a document whose text
yields exactly one extracted field ("NIK: 12345") produces completeness
ratio 1 (one non-blank field over one extracted field), not the 1/10
(one non-blank field over ten schema fields) the claim requires. -/
theorem c8_counterexample :
    (validatePdfFile c8Inp).pdf_processing.form_fields = [(FieldName.nik, "12345")] ∧
      SCHEMA.length = 10 ∧
      ∃ r, (validatePdfFile c8Inp).final_result = FinalOutcome.decided r ∧
        r.form_fields_completeness = 1 ∧ r.form_fields_completeness ≠ 1/10 := by
  have hff : (processPdf c8Inp.primary c8Inp.secondary c8Inp.sigPages
      c8Inp.min_signatures).form_fields = [(FieldName.nik, "12345")] := by decide
  refine ⟨hff, by decide, ?_⟩
  refine ⟨_, validate_reaches_decision c8Inp, ?_, ?_⟩
  · rw [makeFinalDecision_completeness, hff]
    have hc : List.countP (fun p => pyStrip p.2 ≠ "") [(FieldName.nik, "12345")] = 1 := by
      decide
    rw [hc]
    norm_num
  · rw [makeFinalDecision_completeness, hff]
    have hc : List.countP (fun p => pyStrip p.2 ≠ "") [(FieldName.nik, "12345")] = 1 := by
      decide
    rw [hc]
    norm_num

end PdfCheck
